import Mathlib

/-! Formal model of the content-management backend of a personal website:
GraphQL query and mutation resolvers over a relational store, an
authorization guard, credential and token issuance, and the admin client
data-access facade.  The resolver bodies are translated from the server
source.  The persistent store, the password hasher and the token signer
are external collaborators of the resolvers and are modelled explicitly,
following the description of those collaborators in the specification. -/

namespace CMS

/-- Modelled from the spec: the salted one-way password hash produced by
the external bcrypt collaborator at a given cost factor.  One-wayness is
not representable in a shallow embedding; the model records the inputs of
the hash so that equalities between stored and recomputed hashes can be
stated and checked. -/
structure BcryptHash where
  cost : Nat
  salt : Nat
  pw : String
  deriving DecidableEq, Repr

/-- Modelled from the spec: bcrypt hashing of a password at a cost factor
with a fresh random salt.  The salt is passed explicitly since the model
is deterministic. -/
def bcryptHash (pw : String) (cost : Nat) (salt : Nat) : BcryptHash :=
  { cost := cost, salt := salt, pw := pw }

/-- Modelled from the spec: bcrypt comparison of a plaintext password
against a stored hash, true exactly when the hash was produced from the
same password. -/
def bcryptCompare (pw : String) (h : BcryptHash) : Bool :=
  h.pw == pw

/-- Modelled from the spec: a signed session token carrying the user
identifier, signed with a process-wide secret.  Verification succeeds
exactly when the recorded secret is the process-wide one. -/
structure Token where
  userId : Nat
  secret : String
  deriving DecidableEq, Repr

/-- Modelled from the spec: jwt.sign of a payload holding a user id,
using the given signing secret. -/
def jwtSign (userId : Nat) (secret : String) : Token :=
  { userId := userId, secret := secret }

/-- Modelled from the spec: the process-wide token-signing secret. -/
def APP_SECRET : String := "app-secret"

/-- Modelled from the spec: the process-wide designated admin user name. -/
def ADMIN_USER : String := "admin"

/-- Article record: title, summary, content body, tag list and draft flag. -/
structure Article where
  id : Nat
  title : String
  summary : String
  content : String
  tags : List String
  draft : Bool
  deriving DecidableEq, Repr

/-- User record: unique name, email and stored password hash. -/
structure User where
  id : Nat
  name : String
  email : String
  pwHash : BcryptHash
  deriving DecidableEq, Repr

/-- Comment record: content plus references to the authoring user and the
parent article. -/
structure Comment where
  id : Nat
  content : String
  userId : Nat
  articleId : Nat
  deriving DecidableEq, Repr

/-- Page record: static content container looked up by unique name. -/
structure Page where
  name : String
  content : String
  deriving DecidableEq, Repr

/-- Modelled from the spec: the persistent store collaborator.  Entities
live in insertion-ordered lists and fresh records take the next free id. -/
structure Store where
  articles : List Article
  users : List User
  comments : List Comment
  pages : List Page
  nextId : Nat
  deriving DecidableEq, Repr

/-- Failure outcome of a resolver call: either a thrown Error with its
message, or the TypeError raised by a JavaScript property access on null
or undefined. -/
inductive JsErr where
  | error (msg : String)
  | typeError
  deriving DecidableEq, Repr

/-- Request context: the verified bearer token, if any, plus access to the
store (passed separately to each resolver in this model). -/
structure Ctx where
  token : Option Token
  deriving DecidableEq, Repr

/-- Modelled from the spec: single-article lookup on the store; resolves
to none (JavaScript null) when no record matches the id, in the manner of
the Prisma 1 client. -/
def Store.article (s : Store) (id : Nat) : Option Article :=
  s.articles.find? (fun a => a.id == id)

/-- Modelled from the spec: single-user lookup by id on the store;
resolves to none (JavaScript null) when no record matches. -/
def Store.user (s : Store) (id : Nat) : Option User :=
  s.users.find? (fun u => u.id == id)

/-- Modelled from the spec: single-user lookup by email on the store;
resolves to none (JavaScript null) when no record matches. -/
def Store.userByEmail (s : Store) (email : String) : Option User :=
  s.users.find? (fun u => u.email == email)

/-- Modelled from the spec: single-page lookup by unique name on the
store; resolves to none (JavaScript null) when no record matches. -/
def Store.page (s : Store) (name : String) : Option Page :=
  s.pages.find? (fun p => p.name == name)

/-- Case-sensitive substring containment, the semantics of the
title_contains and summary_contains conditions of the store query
language. -/
def containsSubstr (s pat : String) : Bool :=
  decide (pat.data <:+: s.data)

/-- One condition of an OR clause in an article where-filter, as built by
the publishedArticles resolver. -/
inductive ArticleCond where
  | title_contains (f : String)
  | summary_contains (f : String)
  deriving DecidableEq, Repr

/-- Article where-filter shape used by the resolvers: an optional draft
constraint and an optional OR list of conditions. -/
structure ArticlesWhere where
  draft : Option Bool
  OR : Option (List ArticleCond)
  deriving DecidableEq, Repr

/-- Satisfaction of one where-condition by an article. -/
def matchesCond (a : Article) : ArticleCond → Bool
  | ArticleCond.title_contains f => containsSubstr a.title f
  | ArticleCond.summary_contains f => containsSubstr a.summary f

/-- Satisfaction of a where-filter by an article: the draft constraint
when present, and at least one OR condition when an OR list is present. -/
def matchesWhere (w : ArticlesWhere) (a : Article) : Bool :=
  (match w.draft with
   | some d => a.draft == d
   | none => true) &&
  (match w.OR with
   | some conds => conds.any (matchesCond a)
   | none => true)

/-- Modelled from the spec: offset and limit pagination of the store, with
both bounds optional as in the skip and first arguments. -/
def paginate (l : List Article) : Option Nat → Option Nat → List Article
  | some k, some n => (l.drop k).take n
  | some k, none => l.drop k
  | none, some n => l.take n
  | none, none => l

/-- Modelled from the spec: the article collection query of the store,
filtering by a where-clause then paginating. -/
def Store.articlesQuery (s : Store) (w : ArticlesWhere) (skip first : Option Nat) :
    List Article :=
  paginate (s.articles.filter (matchesWhere w)) skip first

/-- Arguments of the publishedArticles resolver. -/
structure PublishedArgs where
  filter : Option String
  skip : Option Nat
  first : Option Nat
  deriving DecidableEq, Repr

/-- Where-clause built by the publishedArticles resolver: draft is pinned
to false, and when the filter argument is truthy (present and not the
empty string, per JavaScript truthiness) an OR clause over title and
summary containment is added. -/
def publishedWhere (filter : Option String) : ArticlesWhere :=
  match filter with
  | some f =>
    if f = "" then { draft := some false, OR := none }
    else
      { draft := some false,
        OR := some [ArticleCond.title_contains f, ArticleCond.summary_contains f] }
  | none => { draft := some false, OR := none }

/-- The publishedArticles query resolver: non-draft articles, optionally
text-filtered, paginated by skip and first. -/
def publishedArticles (args : PublishedArgs) (s : Store) : List Article :=
  s.articlesQuery (publishedWhere args.filter) args.skip args.first

theorem containsSubstr_empty (s : String) : containsSubstr s "" = true := by
  apply decide_eq_true
  exact List.nil_infix

theorem mem_paginate {a : Article} {l : List Article} {sk fi : Option Nat}
    (h : a ∈ paginate l sk fi) : a ∈ l := by
  cases sk <;> cases fi <;> simp only [paginate] at h
  · exact h
  · exact List.mem_of_mem_take h
  · exact List.mem_of_mem_drop h
  · exact List.mem_of_mem_drop (List.mem_of_mem_take h)

theorem matchesWhere_publishedWhere {fo : Option String} {a : Article}
    (hm : matchesWhere (publishedWhere fo) a = true) :
    a.draft = false ∧
      ∀ f, fo = some f →
        (containsSubstr a.title f = true ∨ containsSubstr a.summary f = true) := by
  cases fo with
  | none =>
    simp only [publishedWhere, matchesWhere, Bool.and_true, beq_iff_eq] at hm
    exact ⟨hm, by intro f hf; cases hf⟩
  | some f =>
    by_cases he : f = ""
    · subst he
      have hw : publishedWhere (some "") = { draft := some false, OR := none } := by
        simp [publishedWhere]
      rw [hw] at hm
      simp only [matchesWhere, Bool.and_true, beq_iff_eq] at hm
      refine ⟨hm, ?_⟩
      intro g hg
      cases hg
      exact Or.inl (containsSubstr_empty a.title)
    · have hw : publishedWhere (some f) =
          { draft := some false,
            OR := some [ArticleCond.title_contains f, ArticleCond.summary_contains f] } := by
        simp [publishedWhere, he]
      rw [hw] at hm
      simp only [matchesWhere, List.any_cons, List.any_nil, matchesCond,
        Bool.or_false, Bool.and_eq_true, Bool.or_eq_true, beq_iff_eq] at hm
      refine ⟨hm.1, ?_⟩
      intro g hg
      cases hg
      exact hm.2

/-- C1: every article returned by publishedArticles has draft set to
false, for every filter, skip and first argument; and when a filter is
supplied, every returned article contains the filter as a case-sensitive
substring of its title or of its summary. -/
theorem publishedArticles_published_and_filtered (args : PublishedArgs) (s : Store)
    (a : Article) (h : a ∈ publishedArticles args s) :
    a.draft = false ∧
      ∀ f, args.filter = some f →
        (containsSubstr a.title f = true ∨ containsSubstr a.summary f = true) := by
  have h1 : a ∈ s.articles.filter (matchesWhere (publishedWhere args.filter)) :=
    mem_paginate h
  exact matchesWhere_publishedWhere (List.mem_filter.mp h1).2

/-- Admin user of the concrete example store. -/
def uAdmin : User :=
  { id := 1, name := "admin", email := "admin@site.net",
    pwHash := bcryptHash "adminpw" 10 3 }

/-- Non-admin user of the concrete example store. -/
def uAlice : User :=
  { id := 2, name := "alice", email := "alice@site.net",
    pwHash := bcryptHash "alicepw" 10 5 }

/-- Published article of the concrete example store. -/
def wArticle : Article :=
  { id := 1, title := "lean proofs", summary := "about lean", content := "body",
    tags := ["lean"], draft := false }

/-- Draft article of the concrete example store. -/
def wDraftArticle : Article :=
  { id := 2, title := "draft lean notes", summary := "unfinished", content := "wip",
    tags := [], draft := true }

/-- Page of the concrete example store. -/
def wPage : Page :=
  { name := "about", content := "about me" }

/-- Concrete example store used by the evaluation theorems. -/
def wStore : Store :=
  { articles := [wArticle, wDraftArticle],
    users := [uAdmin, uAlice],
    comments := [],
    pages := [wPage],
    nextId := 10 }

/-- Concrete arguments for the publishedArticles evaluation. -/
def wArgs : PublishedArgs :=
  { filter := some "lean", skip := some 0, first := some 5 }

/-- C1 witness: the concrete published article is returned by the query
at a concrete filtered, paginated call, it is not a draft, and it
contains the filter in its title. -/
theorem publishedArticles_published_and_filtered_witness :
    wArticle.draft = false ∧
      (containsSubstr wArticle.title "lean" = true ∨
        containsSubstr wArticle.summary "lean" = true) :=
  ⟨(publishedArticles_published_and_filtered wArgs wStore wArticle (by decide)).1,
   (publishedArticles_published_and_filtered wArgs wStore wArticle (by decide)).2
     "lean" rfl⟩

/-- Modelled from the spec: resolveCurrentUserId of the authorization
guard.  It extracts and verifies the signed token of the request and
fails with UnauthenticatedError when the token is absent or its signature
does not verify against the process-wide secret; otherwise it returns the
embedded user identifier. -/
def getUserId (ctx : Ctx) : Except JsErr Nat :=
  match ctx.token with
  | none => Except.error (JsErr.error "Not authenticated")
  | some t =>
    if t.secret = APP_SECRET then Except.ok t.userId
    else Except.error (JsErr.error "Not authenticated")

/-- Modelled from the spec: assertAdminUser of the authorization guard.
It resolves the current user and fails with NotAuthorizedError, message
Not authorized, unless the name of the resolved user equals the
process-wide admin name. -/
def assertAdminUser (ctx : Ctx) (s : Store) : Except JsErr Unit :=
  match getUserId ctx with
  | Except.error e => Except.error e
  | Except.ok uid =>
    match s.user uid with
    | some u =>
      if u.name = ADMIN_USER then Except.ok ()
      else Except.error (JsErr.error "Not authorized")
    | none => Except.error (JsErr.error "Not authorized")

/-- The article query resolver: it fetches the article by id from the
store, reads its draft flag (a TypeError when the lookup produced null),
requires the admin user when the flag is set, and returns the article. -/
def article (ctx : Ctx) (id : Nat) (s : Store) : Except JsErr Article :=
  match s.article id with
  | none => Except.error JsErr.typeError
  | some a =>
    if a.draft then
      match assertAdminUser ctx s with
      | Except.ok _ => Except.ok a
      | Except.error e => Except.error e
    else Except.ok a

/-- The page query resolver: it returns the store lookup result directly,
so a missing name yields a successful null result rather than an error. -/
def page (name : String) (s : Store) : Except JsErr (Option Page) :=
  Except.ok (s.page name)

/-- C2 counterexample: on a store holding a draft article, a caller that
is not the admin identity because it carries no token at all receives
UnauthenticatedError from the modelled guard, not the NotAuthorizedError
the claim asserts for every non-admin caller. -/
theorem article_draft_anonymous_counterexample :
    article { token := none } 2 wStore =
        Except.error (JsErr.error "Not authenticated") ∧
      article { token := none } 2 wStore ≠
        Except.error (JsErr.error "Not authorized") := by
  refine ⟨rfl, ?_⟩
  intro h
  rw [show article { token := none } 2 wStore =
      Except.error (JsErr.error "Not authenticated") from rfl] at h
  have h2 := Except.error.inj h
  have h3 := JsErr.error.inj h2
  exact absurd h3 (by decide)

/-- C2 (amended): for every stored draft article, the article query fails
with UnauthenticatedError when the caller carries no token or a token
whose signature does not verify against the process-wide secret; fails
with NotAuthorizedError when the caller carries a validly signed token
but is not the admin identity, whether that token resolves to no stored
user or to a stored user whose name is not the admin name; and returns
the article for the admin caller. -/
theorem article_draft_requires_admin (s : Store) (id : Nat) (a : Article) (t : Token)
    (ha : s.article id = some a) (hd : a.draft = true) :
    (article { token := none } id s =
        Except.error (JsErr.error "Not authenticated")) ∧
      (t.secret ≠ APP_SECRET →
        article { token := some t } id s =
          Except.error (JsErr.error "Not authenticated")) ∧
      (t.secret = APP_SECRET → s.user t.userId = none →
        article { token := some t } id s =
          Except.error (JsErr.error "Not authorized")) ∧
      (∀ u, t.secret = APP_SECRET → s.user t.userId = some u →
        u.name ≠ ADMIN_USER →
        article { token := some t } id s =
          Except.error (JsErr.error "Not authorized")) ∧
      (∀ u, t.secret = APP_SECRET → s.user t.userId = some u →
        u.name = ADMIN_USER →
        article { token := some t } id s = Except.ok a) := by
  refine ⟨?_, ?_, ?_, ?_, ?_⟩
  · simp [article, ha, hd, assertAdminUser, getUserId]
  · intro hsec
    simp [article, ha, hd, assertAdminUser, getUserId, hsec]
  · intro hsec hu
    simp [article, ha, hd, assertAdminUser, getUserId, hsec, hu]
  · intro u hsec hu hname
    simp [article, ha, hd, assertAdminUser, getUserId, hsec, hu, hname]
  · intro u hsec hu hname
    simp [article, ha, hd, assertAdminUser, getUserId, hsec, hu, hname]

/-- Token of the non-admin user alice in the example store. -/
def tAlice : Token := { userId := 2, secret := APP_SECRET }

/-- Token of the admin user in the example store. -/
def tAdmin : Token := { userId := 1, secret := APP_SECRET }

/-- C2 witness: on the concrete store, the draft article is refused with
UnauthenticatedError for the anonymous caller and for a caller whose
token carries the wrong secret, refused with NotAuthorizedError for a
validly signed token naming a missing user and for the authenticated
non-admin user, and returned to the admin user. -/
theorem article_draft_requires_admin_witness :
    article { token := none } 2 wStore =
        Except.error (JsErr.error "Not authenticated") ∧
      article { token := some { userId := 2, secret := "bad" } } 2 wStore =
        Except.error (JsErr.error "Not authenticated") ∧
      article { token := some { userId := 99, secret := APP_SECRET } } 2 wStore =
        Except.error (JsErr.error "Not authorized") ∧
      article { token := some tAlice } 2 wStore =
        Except.error (JsErr.error "Not authorized") ∧
      article { token := some tAdmin } 2 wStore = Except.ok wDraftArticle :=
  ⟨(article_draft_requires_admin wStore 2 wDraftArticle tAlice rfl rfl).1,
   (article_draft_requires_admin wStore 2 wDraftArticle
     { userId := 2, secret := "bad" } rfl rfl).2.1 (by decide),
   (article_draft_requires_admin wStore 2 wDraftArticle
     { userId := 99, secret := APP_SECRET } rfl rfl).2.2.1 rfl rfl,
   (article_draft_requires_admin wStore 2 wDraftArticle tAlice rfl rfl).2.2.2.1
     uAlice rfl rfl (by decide),
   (article_draft_requires_admin wStore 2 wDraftArticle tAdmin rfl rfl).2.2.2.2
     uAdmin rfl rfl rfl⟩

/-- C3: evaluated at an id matching no stored article, the article query
does not fail with a NotFoundError; reading the draft flag of the null
lookup result raises a TypeError. -/
theorem article_missing_id_crashes :
    article { token := none } 99 wStore = Except.error JsErr.typeError ∧
      article { token := some tAdmin } 99 wStore = Except.error JsErr.typeError :=
  ⟨rfl, rfl⟩

/-- C9: for every stored article whose draft flag is false, the article
query returns that article for every caller identity, including the
anonymous one, so its result does not depend on the identity of the
request. -/
theorem article_published_identity_independent (s : Store) (id : Nat) (a : Article)
    (ha : s.article id = some a) (hd : a.draft = false) :
    (∀ ctx : Ctx, article ctx id s = Except.ok a) ∧
      (∀ ctx₁ ctx₂ : Ctx, article ctx₁ id s = article ctx₂ id s) := by
  have h : ∀ ctx : Ctx, article ctx id s = Except.ok a := by
    intro ctx
    simp [article, ha, hd]
  exact ⟨h, fun c₁ c₂ => (h c₁).trans (h c₂).symm⟩

/-- C9 witness: the concrete published article is returned unchanged to
the anonymous caller, the non-admin caller and the admin caller. -/
theorem article_published_identity_independent_witness :
    article { token := none } 1 wStore = Except.ok wArticle ∧
      article { token := some tAlice } 1 wStore =
        article { token := some tAdmin } 1 wStore :=
  ⟨(article_published_identity_independent wStore 1 wArticle rfl rfl).1
     { token := none },
   (article_published_identity_independent wStore 1 wArticle rfl rfl).2
     { token := some tAlice } { token := some tAdmin }⟩

/-- C7 counterexample: on the concrete store, a page lookup for a name
matching no stored page succeeds with a null result instead of failing
with a NotFoundError. -/
theorem page_missing_counterexample :
    wStore.page "missing" = none ∧ page "missing" wStore = Except.ok none :=
  ⟨rfl, rfl⟩

/-- C7 (amended): the page query returns a successful null result when no
stored page carries the requested name, and returns the page when one
does; it never fails. -/
theorem page_lookup_cases (name : String) (s : Store) :
    (s.page name = none → page name s = Except.ok none) ∧
      (∀ p, s.page name = some p → page name s = Except.ok (some p)) ∧
      (∀ e : JsErr, page name s ≠ Except.error e) := by
  refine ⟨?_, ?_, ?_⟩
  · intro h
    simp [page, h]
  · intro p h
    simp [page, h]
  · intro e h
    exact Except.noConfusion h

/-- C7 witness: on the concrete store, the stored page is returned for
its name, the missing name yields a null result, and the missing-name
lookup is not an error. -/
theorem page_lookup_cases_witness :
    page "missing" wStore = Except.ok none ∧
      page "about" wStore = Except.ok (some wPage) ∧
      page "missing" wStore ≠ Except.error JsErr.typeError :=
  ⟨(page_lookup_cases "missing" wStore).1 rfl,
   (page_lookup_cases "about" wStore).2.1 wPage rfl,
   (page_lookup_cases "missing" wStore).2.2 JsErr.typeError⟩

/-- Payload returned by signup and login: a token together with the user. -/
structure AuthPayload where
  token : Token
  user : User
  deriving DecidableEq, Repr

/-- Modelled from the spec: the existence check of the store, true when a
user with the given name is already present. -/
def Store.userNameExists (s : Store) (name : String) : Bool :=
  s.users.any (fun u => u.name == name)

/-- Modelled from the spec: user creation on the store; the new record
takes the next free id and is appended to the user list. -/
def Store.createUser (s : Store) (name email : String) (pwHash : BcryptHash) :
    User × Store :=
  let u : User := { id := s.nextId, name := name, email := email, pwHash := pwHash }
  (u, { s with users := s.users ++ [u], nextId := s.nextId + 1 })

/-- The signup mutation resolver: it rejects an already-present name,
otherwise hashes the password with bcrypt at cost factor 10, persists the
new user and returns a signed token together with the user.  The salt is
the one chosen by the hasher, passed explicitly in this model. -/
def signup (name email password : String) (salt : Nat) (s : Store) :
    Except JsErr AuthPayload × Store :=
  if s.userNameExists name then
    (Except.error (JsErr.error "User already exists"), s)
  else
    match s.createUser name email (bcryptHash password 10 salt) with
    | (user, s2) =>
      (Except.ok { token := jwtSign user.id APP_SECRET, user := user }, s2)

/-- The login mutation resolver: it fails when no user carries the email,
fails when the bcrypt comparison of the password against the stored hash
is negative, and otherwise returns a token signed with the process-wide
secret embedding the id of the user, together with the user. -/
def login (email password : String) (s : Store) : Except JsErr AuthPayload :=
  match s.userByEmail email with
  | none => Except.error (JsErr.error "No such user found")
  | some user =>
    if bcryptCompare password user.pwHash then
      Except.ok { token := jwtSign user.id APP_SECRET, user := user }
    else Except.error (JsErr.error "Invalid password")

/-- Arguments of the postArticle resolver. -/
structure PostArticleArgs where
  title : String
  summary : String
  content : String
  tags : List String
  deriving DecidableEq, Repr

/-- Modelled from the spec: article creation on the store; the draft flag
defaults to true on the server side and the tag list is replaced
wholesale by the supplied tags. -/
def Store.createArticle (s : Store) (args : PostArticleArgs) : Article × Store :=
  let a : Article :=
    { id := s.nextId, title := args.title, summary := args.summary,
      content := args.content, tags := args.tags, draft := true }
  (a, { s with articles := s.articles ++ [a], nextId := s.nextId + 1 })

/-- Modelled from the spec: comment creation on the store, connecting the
authoring user and the parent article; a connect to a missing record
fails.  The error path is never reached by the claims settled here. -/
def Store.createComment (s : Store) (content : String) (userId articleId : Nat) :
    Except JsErr (Comment × Store) :=
  match s.article articleId with
  | none => Except.error (JsErr.error "Article not found")
  | some _ =>
    match s.user userId with
    | none => Except.error (JsErr.error "User not found")
    | some _ =>
      let c : Comment :=
        { id := s.nextId, content := content, userId := userId, articleId := articleId }
      Except.ok (c, { s with comments := s.comments ++ [c], nextId := s.nextId + 1 })

/-- The postArticle mutation resolver: it resolves the caller, reads the
name field of the fetched user record (a TypeError when the lookup
produced null), rejects a name different from the admin name with the
message Not authorized, and otherwise creates the article. -/
def postArticle (ctx : Ctx) (args : PostArticleArgs) (s : Store) :
    Except JsErr Article × Store :=
  match getUserId ctx with
  | Except.error e => (Except.error e, s)
  | Except.ok userId =>
    match s.user userId with
    | none => (Except.error JsErr.typeError, s)
    | some user =>
      if user.name ≠ ADMIN_USER then (Except.error (JsErr.error "Not authorized"), s)
      else
        match s.createArticle args with
        | (a, s2) => (Except.ok a, s2)

/-- The postComment mutation resolver: it resolves the caller, reads the
name field of the fetched user record (a TypeError when the lookup
produced null), rejects a name different from the admin name with the
message Not authorized, and otherwise creates the comment connected to
the calling user and the target article. -/
def postComment (ctx : Ctx) (content : String) (articleId : Nat) (s : Store) :
    Except JsErr Comment × Store :=
  match getUserId ctx with
  | Except.error e => (Except.error e, s)
  | Except.ok userId =>
    match s.user userId with
    | none => (Except.error JsErr.typeError, s)
    | some user =>
      if user.name ≠ ADMIN_USER then (Except.error (JsErr.error "Not authorized"), s)
      else
        match s.createComment content userId articleId with
        | Except.ok (c, s2) => (Except.ok c, s2)
        | Except.error e => (Except.error e, s)

/-- C4: for every authenticated caller resolving to a stored user whose
name differs from the admin name, postArticle and postComment fail with
the message Not authorized and leave the store unchanged; for the admin
caller, postArticle appends an article whose tag list is exactly the
supplied tags, and postComment appends a comment linked to the calling
user and the target article. -/
theorem post_mutations_admin_gate (ctx : Ctx) (userId : Nat) (u : User) (s : Store)
    (args : PostArticleArgs) (content : String) (articleId : Nat) (ta : Article)
    (hctx : getUserId ctx = Except.ok userId) (hu : s.user userId = some u)
    (hart : s.article articleId = some ta) :
    (u.name ≠ ADMIN_USER →
      postArticle ctx args s = (Except.error (JsErr.error "Not authorized"), s) ∧
        postComment ctx content articleId s =
          (Except.error (JsErr.error "Not authorized"), s)) ∧
      (u.name = ADMIN_USER →
        (∃ a s2, postArticle ctx args s = (Except.ok a, s2) ∧
          a.tags = args.tags ∧ a.title = args.title ∧ a.summary = args.summary ∧
          a.content = args.content ∧ a.draft = true ∧
          s2.articles = s.articles ++ [a]) ∧
        (∃ c s2, postComment ctx content articleId s = (Except.ok c, s2) ∧
          c.userId = userId ∧ c.articleId = articleId ∧ c.content = content ∧
          s2.comments = s.comments ++ [c])) := by
  constructor
  · intro hname
    constructor
    · simp [postArticle, hctx, hu, hname]
    · simp [postComment, hctx, hu, hname]
  · intro hname
    constructor
    · refine ⟨(s.createArticle args).1, (s.createArticle args).2, ?_,
        rfl, rfl, rfl, rfl, rfl, rfl⟩
      simp [postArticle, hctx, hu, hname, Store.createArticle]
    · refine ⟨⟨s.nextId, content, userId, articleId⟩,
        { s with
            comments := s.comments ++ [⟨s.nextId, content, userId, articleId⟩],
            nextId := s.nextId + 1 }, ?_, rfl, rfl, rfl, rfl⟩
      simp [postComment, hctx, hu, hname, Store.createComment, hart]

/-- Concrete postArticle arguments for the evaluation theorems. -/
def wPostArgs : PostArticleArgs :=
  { title := "new post", summary := "fresh", content := "text", tags := ["a", "b"] }

/-- C4 witness: on the concrete store, the authenticated non-admin caller
is refused with the message Not authorized and the store is unchanged,
while the admin caller creates the article with exactly the supplied tags
and creates the comment linked to the admin user and the target article. -/
theorem post_mutations_admin_gate_witness :
    (postArticle { token := some tAlice } wPostArgs wStore =
        (Except.error (JsErr.error "Not authorized"), wStore) ∧
      postComment { token := some tAlice } "hi" 1 wStore =
        (Except.error (JsErr.error "Not authorized"), wStore)) ∧
      ((∃ a s2, postArticle { token := some tAdmin } wPostArgs wStore =
          (Except.ok a, s2) ∧
          a.tags = wPostArgs.tags ∧ a.title = wPostArgs.title ∧
          a.summary = wPostArgs.summary ∧ a.content = wPostArgs.content ∧
          a.draft = true ∧ s2.articles = wStore.articles ++ [a]) ∧
        (∃ c s2, postComment { token := some tAdmin } "hi" 1 wStore =
          (Except.ok c, s2) ∧
          c.userId = 1 ∧ c.articleId = 1 ∧ c.content = "hi" ∧
          s2.comments = wStore.comments ++ [c])) :=
  ⟨(post_mutations_admin_gate { token := some tAlice } 2 uAlice wStore wPostArgs
      "hi" 1 wArticle rfl rfl rfl).1 (by decide),
   (post_mutations_admin_gate { token := some tAdmin } 1 uAdmin wStore wPostArgs
      "hi" 1 wArticle rfl rfl rfl).2 rfl⟩

/-- C5: signup with an already-present name fails with the message User
already exists and leaves the store, in particular its user list,
unchanged; signup with a fresh name appends exactly one user whose stored
hash is the bcrypt hash of the supplied password at cost factor 10 with
the chosen salt, and returns a signed token together with that user. -/
theorem signup_duplicate_or_create (name email password : String) (salt : Nat)
    (s : Store) :
    (s.userNameExists name = true →
      signup name email password salt s =
        (Except.error (JsErr.error "User already exists"), s)) ∧
      (s.userNameExists name = false →
        ∃ u s2, signup name email password salt s =
            (Except.ok { token := jwtSign u.id APP_SECRET, user := u }, s2) ∧
          u.pwHash = bcryptHash password 10 salt ∧ u.name = name ∧
          u.email = email ∧ s2.users = s.users ++ [u]) := by
  constructor
  · intro h
    simp [signup, h]
  · intro h
    refine ⟨(s.createUser name email (bcryptHash password 10 salt)).1,
      (s.createUser name email (bcryptHash password 10 salt)).2, ?_,
      rfl, rfl, rfl, rfl⟩
    simp [signup, h, Store.createUser]

/-- C5 witness: on the concrete store, signup under the existing name
alice fails with the message User already exists and the store is
unchanged, while signup under the fresh name bob appends one user storing
the bcrypt hash of the password at cost 10 with the chosen salt. -/
theorem signup_duplicate_or_create_witness :
    signup "alice" "a2@site.net" "pw2" 7 wStore =
        (Except.error (JsErr.error "User already exists"), wStore) ∧
      (∃ u s2, signup "bob" "bob@site.net" "bobpw" 7 wStore =
          (Except.ok { token := jwtSign u.id APP_SECRET, user := u }, s2) ∧
        u.pwHash = bcryptHash "bobpw" 10 7 ∧ u.name = "bob" ∧
        u.email = "bob@site.net" ∧ s2.users = wStore.users ++ [u]) :=
  ⟨(signup_duplicate_or_create "alice" "a2@site.net" "pw2" 7 wStore).1 (by decide),
   (signup_duplicate_or_create "bob" "bob@site.net" "bobpw" 7 wStore).2 (by decide)⟩

/-- C6: login fails with the message No such user found when no stored
user carries the supplied email; it fails with the message Invalid
password when a user is found but the bcrypt comparison against the
stored hash is negative; and otherwise it returns the found user together
with a token signed with the process-wide secret embedding the id of that
user. -/
theorem login_cases (email password : String) (s : Store) :
    (s.userByEmail email = none →
      login email password s = Except.error (JsErr.error "No such user found")) ∧
      (∀ u, s.userByEmail email = some u →
        bcryptCompare password u.pwHash = false →
        login email password s = Except.error (JsErr.error "Invalid password")) ∧
      (∀ u, s.userByEmail email = some u →
        bcryptCompare password u.pwHash = true →
        login email password s =
          Except.ok { token := { userId := u.id, secret := APP_SECRET }, user := u }) := by
  refine ⟨?_, ?_, ?_⟩
  · intro h
    simp [login, h]
  · intro u h hc
    simp [login, h, hc]
  · intro u h hc
    simp [login, h, hc, jwtSign]

/-- C6 witness: on the concrete store, an unknown email fails with the
message No such user found, a wrong password for alice fails with the
message Invalid password, and the right password for alice returns alice
together with a token signed with the process-wide secret embedding her
id. -/
theorem login_cases_witness :
    login "nobody@site.net" "pw" wStore =
        Except.error (JsErr.error "No such user found") ∧
      login "alice@site.net" "wrong" wStore =
        Except.error (JsErr.error "Invalid password") ∧
      login "alice@site.net" "alicepw" wStore =
        Except.ok { token := { userId := uAlice.id, secret := APP_SECRET },
                    user := uAlice } :=
  ⟨(login_cases "nobody@site.net" "pw" wStore).1 rfl,
   (login_cases "alice@site.net" "wrong" wStore).2.1 uAlice rfl (by decide),
   (login_cases "alice@site.net" "alicepw" wStore).2.2 uAlice rfl (by decide)⟩

/-- C10: for every request whose verified token resolves to a user id
matching no stored user, postArticle and postComment fail with the
TypeError of reading the name field of the null lookup result, which is
not the NotAuthorizedError of the authorization taxonomy, and both leave
the store unchanged, so nothing is created. -/
theorem post_mutations_missing_user_crash (ctx : Ctx) (userId : Nat) (s : Store)
    (args : PostArticleArgs) (content : String) (articleId : Nat)
    (hctx : getUserId ctx = Except.ok userId) (hu : s.user userId = none) :
    postArticle ctx args s = (Except.error JsErr.typeError, s) ∧
      postComment ctx content articleId s = (Except.error JsErr.typeError, s) ∧
      JsErr.typeError ≠ JsErr.error "Not authorized" := by
  refine ⟨?_, ?_, by decide⟩
  · simp [postArticle, hctx, hu]
  · simp [postComment, hctx, hu]

/-- Token whose verified payload names a user id matching no stored user
of the example store. -/
def tGhost : Token := { userId := 99, secret := APP_SECRET }

/-- C10 witness: on the concrete store, the verified token naming the
missing user id 99 makes postArticle and postComment fail with a
TypeError and leave the store unchanged. -/
theorem post_mutations_missing_user_crash_witness :
    postArticle { token := some tGhost } wPostArgs wStore =
        (Except.error JsErr.typeError, wStore) ∧
      postComment { token := some tGhost } "hi" 1 wStore =
        (Except.error JsErr.typeError, wStore) ∧
      JsErr.typeError ≠ JsErr.error "Not authorized" :=
  post_mutations_missing_user_crash { token := some tGhost } 99 wStore wPostArgs
    "hi" 1 rfl rfl

/-- Runtime value universe for the client facade model: undefined, null,
strings and objects with named fields. -/
inductive JsVal where
  | undef
  | vnull
  | vstr (s : String)
  | vobj (fields : List (String × JsVal))

/-- Field lookup in an object literal; a missing field reads as
undefined. -/
def lookupField : List (String × JsVal) → String → JsVal
  | [], _ => JsVal.undef
  | (k, v) :: rest, f => if k = f then v else lookupField rest f

/-- Property access semantics of JavaScript: reading a field of null or
undefined raises a TypeError, reading a field of an object yields the
field value or undefined, and reading a field of a string primitive
yields undefined here. -/
def getField : JsVal → String → Except JsErr JsVal
  | JsVal.undef, _ => Except.error JsErr.typeError
  | JsVal.vnull, _ => Except.error JsErr.typeError
  | JsVal.vstr _, _ => Except.ok JsVal.undef
  | JsVal.vobj fields, f => Except.ok (lookupField fields f)

/-- String rendering of a runtime value inside a template literal. -/
def jsToString : JsVal → String
  | JsVal.undef => "undefined"
  | JsVal.vnull => "null"
  | JsVal.vstr s => s
  | JsVal.vobj _ => "object"

/-- The rxjs map operator on a single-emission stream: a projection that
throws errors the stream. -/
def rxMap (f : JsVal → Except JsErr JsVal) :
    Except JsErr JsVal → Except JsErr JsVal
  | Except.error e => Except.error e
  | Except.ok v => f v

/-- The rxjs tap operator on a single-emission stream, paired with the
log entries it emits.  The next handler runs on a success value: when it
returns, its message is logged and the value passes through unchanged;
when it throws, the thrown error replaces the emission and nothing is
logged.  On an upstream failure the error handler logs its message and
the failure is still surfaced downstream. -/
def rxTap (onNext : JsVal → Except JsErr String) (errLog : String) :
    Except JsErr JsVal → Except JsErr JsVal × List String
  | Except.error e => (Except.error e, [errLog])
  | Except.ok v =>
    match onNext v with
    | Except.ok m => (Except.ok v, [m])
    | Except.error e => (Except.error e, [])

/-- Projection applied by the facade postArticle to the mutation
response: the postArticle payload under the data field. -/
def mapPostArticle (result : JsVal) : Except JsErr JsVal :=
  match getField result "data" with
  | Except.error e => Except.error e
  | Except.ok d => getField d "postArticle"

/-- Success handler of the tap stage of the facade postArticle, as
written in the source: it reads result.data.postArticle from the value it
receives, which downstream of the map stage is already the article
payload, and logs the created id. -/
def tapPostArticleNext (result : JsVal) : Except JsErr String :=
  match getField result "data" with
  | Except.error e => Except.error e
  | Except.ok d =>
    match getField d "postArticle" with
    | Except.error e => Except.error e
    | Except.ok a =>
      match getField a "id" with
      | Except.error e => Except.error e
      | Except.ok idv => Except.ok ("Created article, id=" ++ jsToString idv)

/-- The facade postArticle pipeline: map the server response to the
payload, then tap for logging. -/
def facadePostArticle (server : Except JsErr JsVal) :
    Except JsErr JsVal × List String :=
  rxTap tapPostArticleNext "Failed to create article" (rxMap mapPostArticle server)

/-- Stated from the specification for comparison: the same facade
operation with the logging stage removed, so only the map stage remains. -/
def facadePostArticleNoLog (server : Except JsErr JsVal) : Except JsErr JsVal :=
  rxMap mapPostArticle server

/-- Article object of a successful server response. -/
def wArticleVal : JsVal :=
  JsVal.vobj [("id", JsVal.vstr "a1"), ("title", JsVal.vstr "new post")]

/-- Successful postArticle server response wrapping the article under
data.postArticle. -/
def wServerOk : Except JsErr JsVal :=
  Except.ok (JsVal.vobj [("data", JsVal.vobj [("postArticle", wArticleVal)])])

/-- C8: evaluated on a successful server response, the facade postArticle
with logging emits a TypeError instead of the mapped payload, because its
tap success handler re-reads result.data.postArticle on the already
mapped article value, while the same pipeline with logging removed emits
the article; so the logging stage does change the value emitted to the
caller.  On a failed server response the failure is logged and then still
surfaced unchanged. -/
theorem facade_postArticle_logging_breaks_result :
    facadePostArticle wServerOk = (Except.error JsErr.typeError, []) ∧
      facadePostArticleNoLog wServerOk = Except.ok wArticleVal ∧
      (facadePostArticle wServerOk).1 ≠ facadePostArticleNoLog wServerOk ∧
      facadePostArticle (Except.error (JsErr.error "network down")) =
        (Except.error (JsErr.error "network down"), ["Failed to create article"]) := by
  refine ⟨rfl, rfl, ?_, rfl⟩
  intro h
  rw [show (facadePostArticle wServerOk).1 = Except.error JsErr.typeError from rfl,
    show facadePostArticleNoLog wServerOk = Except.ok wArticleVal from rfl] at h
  exact Except.noConfusion h

end CMS
